import Mathlib

/-!
Verification development for the `stl-repair` command-line tool
(`src/stl_repair/cli.py`).

The tool is thin glue over Blender's scripting API (`bpy`): every
operation of interest is a call into the host application, guarded by
existence checks and `try/except` blocks.  We embed the Python module
shallowly:

* Host behaviour (which `bpy.ops` operators exist, whether a given host
  call raises, what the scene contains after the import step, whether
  the network download succeeds, ...) is an oracle `HostEnv`.
* Python control flow with exceptions is embedded as values of
  `PyM α = List Event × Except PyExc α`: a trace of the externally
  visible events performed so far, paired with either a result or the
  exception that escaped.  The trace is retained when an exception is
  raised, exactly as the real side effects are.
* Filesystem paths are embedded following CPython `pathlib.PurePosixPath`
  semantics for the operations the script uses (`stem`, `suffix`,
  `with_stem`, `with_suffix`, `parent`, `/`).

Functions keep the names of the Python source (`safe_call`,
`basic_mesh_repair`, `repair_stl`, `attempt_install_print_addon`,
`enable_print_addon`, `main`).
-/

set_option autoImplicit false
set_option maxHeartbeats 1000000

namespace StlRepair

/-- The Python exception classes that the embedded code can raise.
`runtimeError` carries the message of the `RuntimeError(...)` raised in
`repair_stl`; the others arise from built-in operations (tuple
unpacking, indexing, attribute access, imports). -/
inductive PyExc where
  | valueError
  | indexError
  | attributeError
  | importError
  | runtimeError (msg : String)
  deriving DecidableEq, Repr

/-- A Python keyword-argument value as used by the script: every keyword
argument passed to a Blender operator in `cli.py` is either a string or
a boolean literal. -/
inductive PyVal where
  | s (v : String)
  | b (v : Bool)
  deriving DecidableEq, Repr

/-- Externally visible events of a run: an operator invocation that
actually reached the host (`attempt`), an operator found to be missing
by `safe_call` (`missing`, the call is skipped), and the network fetch
of the add-on archive (`download`). -/
inductive Event where
  | attempt (path : String) (kwargs : List (String × PyVal))
  | missing (path : String)
  | download (url : String)
  deriving DecidableEq, Repr

/-- Result of running a piece of embedded Python code: the trace of
events it performed, together with either its value or the exception
that escaped it.  The trace is kept also in the exceptional case. -/
abbrev PyM (α : Type) : Type := List Event × Except PyExc α

/-- Embedded `return`/pure expression: no events, a value. -/
def ret {α : Type} (a : α) : PyM α := ([], Except.ok a)

/-- Embedded `raise`: no events, an exception. -/
def pyRaise {α : Type} (e : PyExc) : PyM α := ([], Except.error e)

/-- Record one externally visible event. -/
def emit (ev : Event) : PyM Unit := ([ev], Except.ok ())

/-- Sequencing of embedded Python statements: if the first raised, the
rest is not executed but the events already performed remain. -/
def bindM {α β : Type} (x : PyM α) (f : α → PyM β) : PyM β :=
  match x.2 with
  | Except.ok a => (x.1 ++ (f a).1, (f a).2)
  | Except.error e => (x.1, Except.error e)

/-- Embedded `try: x except Exception: h`: the handler runs after the
events of the partially executed body. -/
def tryExcept {α : Type} (x : PyM α) (h : PyExc → PyM α) : PyM α :=
  match x.2 with
  | Except.ok a => (x.1, Except.ok a)
  | Except.error e => (x.1 ++ (h e).1, (h e).2)

@[simp] theorem ret_def {α : Type} (a : α) : ret a = ([], Except.ok a) := rfl

@[simp] theorem pyRaise_def {α : Type} (e : PyExc) :
    (pyRaise e : PyM α) = ([], Except.error e) := rfl

@[simp] theorem emit_def (ev : Event) : emit ev = ([ev], Except.ok ()) := rfl

@[simp] theorem bindM_ok {α β : Type} (t : List Event) (a : α) (f : α → PyM β) :
    bindM (t, Except.ok a) f = (t ++ (f a).1, (f a).2) := rfl

@[simp] theorem bindM_error {α β : Type} (t : List Event) (e : PyExc) (f : α → PyM β) :
    bindM (t, Except.error e) f = (t, Except.error e) := rfl

@[simp] theorem tryExcept_ok {α : Type} (t : List Event) (a : α) (h : PyExc → PyM α) :
    tryExcept (t, Except.ok a) h = (t, Except.ok a) := rfl

@[simp] theorem tryExcept_error {α : Type} (t : List Event) (e : PyExc) (h : PyExc → PyM α) :
    tryExcept (t, Except.error e) h = (t ++ (h e).1, (h e).2) := rfl

/-- Split a character list at its last `'.'`: `some (before, after)`
when a dot occurs, `none` otherwise. -/
def lastDotSplit : List Char → Option (List Char × List Char)
  | [] => none
  | c :: cs =>
    match lastDotSplit cs with
    | some (a, b) => some (c :: a, b)
    | none => if c = '.' then some ([], cs) else none

/-- CPython `s.rsplit(".", 1)`: a two-element list when `s` contains a
dot (split at the last one), otherwise the one-element list `[s]`. -/
def rsplitDot1 (s : String) : List String :=
  match lastDotSplit s.data with
  | some (a, b) => [String.mk a, String.mk b]
  | none => [s]

theorem lastDotSplit_eq_none_of_not_mem :
    ∀ cs : List Char, lastDotSplit cs = none → '.' ∉ cs := by
  intro cs
  induction cs with
  | nil => intro _ h; exact absurd h (List.not_mem_nil '.')
  | cons c cs ih =>
    intro h
    unfold lastDotSplit at h
    cases hrec : lastDotSplit cs with
    | some p => rw [hrec] at h; cases p; simp at h
    | none =>
      rw [hrec] at h
      by_cases hc : c = '.'
      · simp [hc] at h
      · intro hmem
        rcases List.mem_cons.mp hmem with h1 | h2
        · exact hc h1.symm
        · exact ih hrec h2

theorem rsplitDot1_two_of_dot (s : String) (h : '.' ∈ s.data) :
    ∃ m n, rsplitDot1 s = [m, n] := by
  unfold rsplitDot1
  cases hs : lastDotSplit s.data with
  | some p => exact ⟨String.mk p.1, String.mk p.2, rfl⟩
  | none => exact absurd h (lastDotSplit_eq_none_of_not_mem s.data hs)

/-- A Blender scene object as far as the script observes and mutates
it: its `name` and its `location` vector.  The script writes only the
exact float literal `0.0` into the location, so the coordinates are
embedded as integers (no approximate float arithmetic occurs). -/
structure PyObj where
  name : String
  locX : Int
  locY : Int
  locZ : Int
  deriving DecidableEq, Repr

/-- A `pathlib` path, embedded as POSIX: whether it is absolute, plus
its components in order.  Components are the parts after parsing, so
`name` is the last component (or the empty string when there is none,
as for `Path(".")` or `Path("/")`). -/
structure PyPath where
  absolute : Bool
  parts : List String
  deriving DecidableEq, Repr

/-- CPython `PurePath.name`: the final component, or `""` if there is
none. -/
def PyPath.name (p : PyPath) : String := p.parts.getLast?.getD ""

/-- CPython suffix rule on a file name: with `i` the index of the last
dot, the suffix is `name[i:]` when `0 < i < len(name) - 1`, and empty
otherwise (so `"a."`, `".bashrc"` and dotless names have no suffix). -/
def strSuffix (n : String) : String :=
  match lastDotSplit n.data with
  | some (a, b) => if a ≠ [] ∧ b ≠ [] then String.mk ('.' :: b) else ""
  | none => ""

/-- CPython stem rule on a file name: the name with its suffix (as in
`strSuffix`) removed. -/
def strStem (n : String) : String :=
  match lastDotSplit n.data with
  | some (a, b) => if a ≠ [] ∧ b ≠ [] then String.mk a else n
  | none => n

/-- CPython `PurePath.suffix` of the embedded path. -/
def PyPath.suffix (p : PyPath) : String := strSuffix p.name

/-- CPython `PurePath.stem` of the embedded path. -/
def PyPath.stem (p : PyPath) : String := strStem p.name

/-- CPython `PurePath.parent`: drop the final component (the parent of
an empty path is itself). -/
def PyPath.parent (p : PyPath) : PyPath := ⟨p.absolute, p.parts.dropLast⟩

/-- CPython `path / filename` for a plain file name (the only join the
script performs): append one component. -/
def PyPath.joinName (p : PyPath) (n : String) : PyPath :=
  ⟨p.absolute, p.parts ++ [n]⟩

/-- CPython `PurePath.with_name`: raises `ValueError` when the path has
no final component or when the new name is empty, is `"."`, or contains
a separator. -/
def PyPath.with_name (p : PyPath) (n : String) : Except PyExc PyPath :=
  if p.name = "" then Except.error PyExc.valueError
  else if n = "" ∨ n = "." ∨ n.data.contains '/' then Except.error PyExc.valueError
  else Except.ok ⟨p.absolute, p.parts.dropLast ++ [n]⟩

/-- CPython `PurePath.with_suffix`: validates the new suffix, requires a
non-empty name, and replaces the old suffix (the new name is always
`stem + suffix`). -/
def PyPath.with_suffix (p : PyPath) (suf : String) : Except PyExc PyPath :=
  if suf.data.contains '/' then Except.error PyExc.valueError
  else if (suf ≠ "" ∧ suf.data.head? ≠ some '.') ∨ suf = "." then Except.error PyExc.valueError
  else if p.name = "" then Except.error PyExc.valueError
  else Except.ok ⟨p.absolute, p.parts.dropLast ++ [p.stem ++ suf]⟩

/-- CPython `PurePath.with_stem`: `with_name(stem + self.suffix)`. -/
def PyPath.with_stem (p : PyPath) (st : String) : Except PyExc PyPath :=
  p.with_name (st ++ p.suffix)

/-- CPython `str(path)` for the embedded POSIX path (used only to build
the string keyword arguments handed to the host importer/exporter). -/
def PyPath.render (p : PyPath) : String :=
  if p.parts = [] then (if p.absolute then "/" else ".")
  else (if p.absolute then "/" else "") ++ "/".intercalate p.parts

/-- Python `str.lower()` restricted to ASCII, which is all the script
compares (`".stl"`). -/
def asciiLower (s : String) : String := String.mk (s.data.map Char.toLower)

/-- The oracle describing the host side of a run: whether `bpy` can
be imported, whether the input file exists, which `bpy.ops` operator
modules and operators exist, which host operator calls complete without
raising, what the scene's active/selected objects are at the lookup
after the import step, and the outcomes of the add-on machinery
(`addon_utils` import, `addon_utils.check` result, `user_resource`,
the add-on folder existence test, the archive download and its
extraction). -/
structure HostEnv where
  bpyImportOk : Bool
  inputExists : Bool
  hasMod : String → Bool
  hasOp : String → String → Bool
  callOk : String → List (String × PyVal) → Bool
  active : Option PyObj
  selected : List PyObj
  addonUtilsImportOk : Bool
  addonCheckOk : Bool
  addonCheckRes : Bool × Bool
  userResourceOk : Bool
  addonFolderExists : Bool
  downloadOk : Bool
  unzipOk : Bool

/-- Whether the operator denoted by a dotted path exists on the host:
`getattr(bpy.ops, mod, None)` is not `None` and the module has the
attribute `name`. -/
def opExists (env : HostEnv) (p : String) : Bool :=
  match rsplitDot1 p with
  | [m, n] => env.hasMod m && env.hasOp m n
  | _ => false

/-- Whether a `safe_call` of this operator returns `True`: the operator
exists and the host call completes without raising. -/
def callSucceeds (env : HostEnv) (p : String) (kw : List (String × PyVal)) : Bool :=
  opExists env p && env.callOk p kw

/-- The one event a `safe_call` leaves in the trace: the host invocation
when the operator exists, otherwise the record that it was missing. -/
def attemptEvt (env : HostEnv) (p : String) (kw : List (String × PyVal)) : Event :=
  if opExists env p then Event.attempt p kw else Event.missing p

/-- Embedding of `safe_call` (cli.py lines 81-93).  The tuple unpacking
`mod, name = op_path.rsplit(".", 1)` raises `ValueError` when the path
contains no dot; otherwise a missing operator is logged and `False`
returned, and the host call is wrapped so that any host exception also
yields `False`. -/
def safe_call (env : HostEnv) (op_path : String) (kwargs : List (String × PyVal)) :
    PyM Bool :=
  match rsplitDot1 op_path with
  | [m, n] =>
    if env.hasMod m && env.hasOp m n then
      ([Event.attempt op_path kwargs], Except.ok (env.callOk op_path kwargs))
    else
      ([Event.missing op_path], Except.ok false)
  | _ => ([], Except.error PyExc.valueError)

/-- Embedding of a direct (unguarded) `bpy.ops` call, as performed for
`bpy.ops.preferences.addon_enable(...)`: attribute access raises when
the operator is missing, and the call itself raises when the host call
fails; nothing is caught here. -/
def direct_call (env : HostEnv) (p : String) (kw : List (String × PyVal)) : PyM Unit :=
  if opExists env p then
    bindM (emit (Event.attempt p kw)) fun _ =>
      if env.callOk p kw then ret () else pyRaise (PyExc.runtimeError "operator call failed")
  else pyRaise PyExc.attributeError

/-- The fixed URL of the add-on archive (cli.py lines 33-35). -/
def addonUrl : String :=
  "https://github.com/blender/blender-addons/archive/refs/heads/main.zip"

/-- Keyword arguments of the `addon_enable` call. -/
def enableKw : List (String × PyVal) := [("module", PyVal.s "object_print3d_utils")]

/-- Keyword arguments of the STL import call in `repair_stl`. -/
def importKw (i : PyPath) : List (String × PyVal) :=
  [("filepath", PyVal.s i.render), ("directory", PyVal.s i.parent.render)]

/-- Keyword arguments of the STL export call in `repair_stl` (the
filepath is the export directory plus `os.sep`). -/
def exportKw (o : PyPath) : List (String × PyVal) :=
  [("filepath", PyVal.s (o.parent.render ++ "/")),
   ("display_type", PyVal.s "DEFAULT"),
   ("use_batch", PyVal.b true),
   ("export_selected_objects", PyVal.b true)]

/-- Embedding of `attempt_install_print_addon` (cli.py lines 26-57).
The whole body is wrapped in `try/except` returning `False`.  The body:
resolve the user add-ons directory (may raise), test whether the add-on
folder already exists, and only if it does not, download the archive
from the fixed URL and extract the `object_print3d_utils` entries (the
individual extracted file writes are summarised by the `unzipOk`
oracle, as the claims observe only whether extraction raised);
finally enable the add-on with a direct host call and return `True`. -/
def attempt_install_print_addon (env : HostEnv) : PyM Bool :=
  tryExcept
    (bindM (if env.userResourceOk then ret () else pyRaise (PyExc.runtimeError "user_resource")) fun _ =>
     bindM (if env.addonFolderExists then ret () else
              bindM (emit (Event.download addonUrl)) fun _ =>
              bindM (if env.downloadOk then ret () else pyRaise (PyExc.runtimeError "urlretrieve")) fun _ =>
              (if env.unzipOk then ret () else pyRaise (PyExc.runtimeError "zipfile"))) fun _ =>
     bindM (direct_call env "preferences.addon_enable" enableKw) fun _ =>
     ret true)
    (fun _ => ret false)

/-- Embedding of `enable_print_addon` (cli.py lines 60-78).  Inside an
outer `try/except` returning `False`: import `addon_utils` (may raise),
run `addon_utils.check` (may raise); when the check reports the add-on
present, try a direct `addon_enable` call and return `True` on success
(a failure of that call is swallowed); in all remaining cases fall
through to `attempt_install_print_addon`. -/
def enable_print_addon (env : HostEnv) : PyM Bool :=
  tryExcept
    (bindM (if env.addonUtilsImportOk then ret () else pyRaise PyExc.importError) fun _ =>
     bindM (if env.addonCheckOk then ret env.addonCheckRes else pyRaise (PyExc.runtimeError "check")) fun res =>
     bindM (if res.1 || res.2 then
              tryExcept
                (bindM (direct_call env "preferences.addon_enable" enableKw) fun _ =>
                 ret (some true))
                (fun _ => ret none)
            else ret none) fun early =>
     match early with
     | some b => ret b
     | none => attempt_install_print_addon env)
    (fun _ => ret false)

/-- Embedding of `basic_mesh_repair` (cli.py lines 96-107): make the
object active (a plain context assignment, not an operator call), then
the guarded operator sequence: enter edit mode, select all, merge by
distance (`mesh.remove_doubles`, falling back to
`mesh.merge_by_distance` when that returns `False`), fill holes, make
normals consistent with `inside=False`, return to object mode. -/
def basic_mesh_repair (env : HostEnv) (obj : PyObj) : PyM Unit :=
  bindM (safe_call env "object.mode_set" [("mode", PyVal.s "EDIT")]) fun _ =>
  bindM (safe_call env "mesh.select_all" [("action", PyVal.s "SELECT")]) fun _ =>
  bindM (safe_call env "mesh.remove_doubles" []) fun rd =>
  bindM (if rd then ret () else
           bindM (safe_call env "mesh.merge_by_distance" []) fun _ => ret ()) fun _ =>
  bindM (safe_call env "mesh.fill_holes" []) fun _ =>
  bindM (safe_call env "mesh.normals_make_consistent" [("inside", PyVal.b false)]) fun _ =>
  bindM (safe_call env "object.mode_set" [("mode", PyVal.s "OBJECT")]) fun _ =>
  ret ()

/-- The object bound at cli.py line 122:
`bpy.context.view_layer.objects.active or bpy.context.selected_objects[0]`,
with `none` standing for the case in which the indexing raises
`IndexError` (no active object and empty selection). -/
def importedObjOf (env : HostEnv) : Option PyObj :=
  match env.active with
  | some o => some o
  | none => env.selected.head?

/-- Embedding of `repair_stl` (cli.py lines 110-157).  Clear the
scene, run the guarded STL import (raising `RuntimeError` when it
returns `False`), look up the imported object (raising `IndexError`
when there is neither an active nor a selected object), centre it,
append the suffix to its name when the suffix is non-empty, run either
the add-on checks (inside the source's `try/except` whose handler runs
`basic_mesh_repair`) or `basic_mesh_repair` directly, then rename the
object to the output stem, export (raising `RuntimeError` on a `False`
export), compute the written file path, and restore the object's name.
Beside the written path the embedding also returns the object in its
final state, so that theorems can speak about its name. -/
def repair_stl (env : HostEnv) (input_path output_path : PyPath)
    (use_print_addon : Bool) (suffix : String) : PyM (PyPath × PyObj) :=
  bindM (safe_call env "object.select_all" [("action", PyVal.s "SELECT")]) fun _ =>
  bindM (safe_call env "object.delete" [("use_global", PyVal.b false), ("confirm", PyVal.b false)]) fun _ =>
  bindM (safe_call env "wm.stl_import" (importKw input_path)) fun ok =>
  bindM (if ok then ret () else pyRaise (PyExc.runtimeError "Failed to import STL")) fun _ =>
  bindM (match env.active with
         | some o => ret o
         | none =>
           match env.selected with
           | [] => pyRaise PyExc.indexError
           | o :: _ => ret o) fun obj0 =>
  bindM (safe_call env "object.origin_set" [("type", PyVal.s "ORIGIN_CENTER_OF_VOLUME"), ("center", PyVal.s "MEDIAN")]) fun _ =>
  (fun (obj1 : PyObj) =>
    (fun (obj2 : PyObj) =>
      bindM (if use_print_addon then
               tryExcept
                 (bindM (safe_call env "mesh.print3d_check_all" []) fun _ =>
                  bindM (safe_call env "mesh.print3d_clean_non_manifold" []) fun _ =>
                  ret ())
                 (fun _ => basic_mesh_repair env obj2)
             else basic_mesh_repair env obj2) fun _ =>
      (fun (export_name : String) =>
        (fun (old_name : String) =>
          (fun (obj3 : PyObj) =>
            bindM (safe_call env "wm.stl_export" (exportKw output_path)) fun okE =>
            bindM (if okE then ret () else pyRaise (PyExc.runtimeError "Failed to export STL")) fun _ =>
            (fun (final_file : PyPath) =>
              ret (final_file, { obj3 with name := old_name }))
            (output_path.parent.joinName (obj3.name ++ ".stl")))
          { obj2 with name := export_name })
        obj2.name)
      output_path.stem)
    (if suffix ≠ "" then { obj1 with name := obj1.name ++ suffix } else obj1))
  { obj0 with locX := 0, locY := 0, locZ := 0 }

/-- The parsed command-line arguments relevant to the embedded
behaviour (`verbose` and `no_log_file` only configure logging). -/
structure Args where
  input : PyPath
  output : Option PyPath
  suffix : String
  force_basic : Bool

/-- The output path chosen by `main` before the extension check: the
given `-o` path, or the input path with its stem extended by the
suffix (cli.py lines 195-197). -/
def mainOutput0 (args : Args) : Except PyExc PyPath :=
  match args.output with
  | none => args.input.with_stem (args.input.stem ++ args.suffix)
  | some o => Except.ok o

/-- The output path after the extension normalisation of cli.py lines
198-199: when the chosen path's suffix is not `".stl"` case-insensitively
it is replaced by `".stl"`. -/
def derivedOutput (args : Args) : Except PyExc PyPath :=
  (mainOutput0 args).bind fun o =>
    if asciiLower o.suffix ≠ ".stl" then o.with_suffix ".stl" else Except.ok o

/-- The suffix string `main` passes to `repair_stl` (cli.py line 210):
empty when `-o` was given, else the `-s` suffix. -/
def mainRepairArgsSuffix (args : Args) : String :=
  if args.output.isSome then "" else args.suffix

/-- The add-on step of `main` (cli.py lines 202-206): skipped entirely
under `--force-basic`, else `enable_print_addon`. -/
def mainEnableRes (env : HostEnv) (args : Args) : PyM Bool :=
  if args.force_basic then ret false else enable_print_addon env

/-- How a run of `main` ends: a process exit with the given code
(`sys.exit(1)`, `sys.exit(2)`, or falling off the end of `main`, which
exits the process with code 0), or a Python exception escaping `main`
uncaught. -/
inductive MainOutcome where
  | exit (code : Nat)
  | uncaught (e : PyExc)
  deriving DecidableEq, Repr

/-- Embedding of `main` (cli.py lines 188-215), after argument parsing:
exit 1 when the input does not exist; derive the output path (an
escaping `ValueError` from the path methods is uncaught); run the
add-on step; call `repair_stl` inside `try/except`, exiting 2 when it
raises and finishing normally (process exit 0) otherwise. -/
def main (env : HostEnv) (args : Args) : List Event × MainOutcome :=
  if env.inputExists = false then ([], MainOutcome.exit 1)
  else
    match derivedOutput args with
    | Except.error e => ([], MainOutcome.uncaught e)
    | Except.ok output =>
      match mainEnableRes env args with
      | (t1, Except.error e) => (t1, MainOutcome.uncaught e)
      | (t1, Except.ok useAddon) =>
        match repair_stl env args.input output useAddon (mainRepairArgsSuffix args) with
        | (t2, Except.ok _) => (t1 ++ t2, MainOutcome.exit 0)
        | (t2, Except.error _) => (t1 ++ t2, MainOutcome.exit 2)

/-- The module-level guard plus `main` (cli.py lines 16-23 and 188-215):
when `bpy` cannot be imported the module exits with code 1 before
`main` runs. -/
def cli_main (env : HostEnv) (args : Args) : List Event × MainOutcome :=
  if env.bpyImportOk = false then ([], MainOutcome.exit 1) else main env args

/-- Whether an `Except` result is a success. -/
def exceptOk {α : Type} : Except PyExc α → Bool
  | Except.ok _ => true
  | Except.error _ => false

/-- The operator path named by an event, when it names one. -/
def evtPath : Event → Option String
  | Event.attempt p _ => some p
  | Event.missing p => some p
  | Event.download _ => none

/-- Whether a trace mentions the operator path `p` (as an attempted or
missing operator). -/
def mentionsB (t : List Event) (p : String) : Bool :=
  t.any fun e => evtPath e == some p

/-- Whether an event is the network fetch of the add-on archive. -/
def isDownload : Event → Bool
  | Event.download _ => true
  | _ => false

/-- Number of network fetches in a trace. -/
def downloadCount : List Event → Nat
  | [] => 0
  | e :: t => (if isDownload e then 1 else 0) + downloadCount t

@[simp] theorem downloadCount_nil : downloadCount [] = 0 := rfl

@[simp] theorem downloadCount_cons (e : Event) (t : List Event) :
    downloadCount (e :: t) = (if isDownload e then 1 else 0) + downloadCount t := rfl

@[simp] theorem downloadCount_append (s t : List Event) :
    downloadCount (s ++ t) = downloadCount s + downloadCount t := by
  induction s with
  | nil => simp
  | cons e s ih => simp [ih]; omega

@[simp] theorem isDownload_attemptEvt (env : HostEnv) (p : String) (kw : List (String × PyVal)) :
    isDownload (attemptEvt env p kw) = false := by
  unfold attemptEvt; split <;> rfl

@[simp] theorem evtPath_attemptEvt (env : HostEnv) (p : String) (kw : List (String × PyVal)) :
    evtPath (attemptEvt env p kw) = some p := by
  unfold attemptEvt; split <;> rfl

@[simp] theorem mentionsB_nil (p : String) : mentionsB [] p = false := rfl

@[simp] theorem mentionsB_cons (e : Event) (t : List Event) (p : String) :
    mentionsB (e :: t) p = ((evtPath e == some p) || mentionsB t p) := rfl

@[simp] theorem mentionsB_append (s t : List Event) (p : String) :
    mentionsB (s ++ t) p = (mentionsB s p || mentionsB t p) := by
  unfold mentionsB; exact List.any_append

theorem safe_call_eq (env : HostEnv) (m n p : String) (kw : List (String × PyVal))
    (h : rsplitDot1 p = [m, n]) :
    safe_call env p kw = ([attemptEvt env p kw], Except.ok (callSucceeds env p kw)) := by
  unfold safe_call attemptEvt callSucceeds opExists
  rw [h]
  by_cases hmn : (env.hasMod m && env.hasOp m n) = true <;> simp [hmn]

@[simp] theorem safe_call_select_all_obj (env : HostEnv) (kw : List (String × PyVal)) :
    safe_call env "object.select_all" kw
      = ([attemptEvt env "object.select_all" kw], Except.ok (callSucceeds env "object.select_all" kw)) :=
  safe_call_eq env "object" "select_all" _ kw (by decide)

@[simp] theorem safe_call_delete (env : HostEnv) (kw : List (String × PyVal)) :
    safe_call env "object.delete" kw
      = ([attemptEvt env "object.delete" kw], Except.ok (callSucceeds env "object.delete" kw)) :=
  safe_call_eq env "object" "delete" _ kw (by decide)

@[simp] theorem safe_call_stl_import (env : HostEnv) (kw : List (String × PyVal)) :
    safe_call env "wm.stl_import" kw
      = ([attemptEvt env "wm.stl_import" kw], Except.ok (callSucceeds env "wm.stl_import" kw)) :=
  safe_call_eq env "wm" "stl_import" _ kw (by decide)

@[simp] theorem safe_call_origin_set (env : HostEnv) (kw : List (String × PyVal)) :
    safe_call env "object.origin_set" kw
      = ([attemptEvt env "object.origin_set" kw], Except.ok (callSucceeds env "object.origin_set" kw)) :=
  safe_call_eq env "object" "origin_set" _ kw (by decide)

@[simp] theorem safe_call_check_all (env : HostEnv) (kw : List (String × PyVal)) :
    safe_call env "mesh.print3d_check_all" kw
      = ([attemptEvt env "mesh.print3d_check_all" kw], Except.ok (callSucceeds env "mesh.print3d_check_all" kw)) :=
  safe_call_eq env "mesh" "print3d_check_all" _ kw (by decide)

@[simp] theorem safe_call_clean_non_manifold (env : HostEnv) (kw : List (String × PyVal)) :
    safe_call env "mesh.print3d_clean_non_manifold" kw
      = ([attemptEvt env "mesh.print3d_clean_non_manifold" kw],
         Except.ok (callSucceeds env "mesh.print3d_clean_non_manifold" kw)) :=
  safe_call_eq env "mesh" "print3d_clean_non_manifold" _ kw (by decide)

@[simp] theorem safe_call_mode_set (env : HostEnv) (kw : List (String × PyVal)) :
    safe_call env "object.mode_set" kw
      = ([attemptEvt env "object.mode_set" kw], Except.ok (callSucceeds env "object.mode_set" kw)) :=
  safe_call_eq env "object" "mode_set" _ kw (by decide)

@[simp] theorem safe_call_select_all_mesh (env : HostEnv) (kw : List (String × PyVal)) :
    safe_call env "mesh.select_all" kw
      = ([attemptEvt env "mesh.select_all" kw], Except.ok (callSucceeds env "mesh.select_all" kw)) :=
  safe_call_eq env "mesh" "select_all" _ kw (by decide)

@[simp] theorem safe_call_remove_doubles (env : HostEnv) (kw : List (String × PyVal)) :
    safe_call env "mesh.remove_doubles" kw
      = ([attemptEvt env "mesh.remove_doubles" kw], Except.ok (callSucceeds env "mesh.remove_doubles" kw)) :=
  safe_call_eq env "mesh" "remove_doubles" _ kw (by decide)

@[simp] theorem safe_call_merge_by_distance (env : HostEnv) (kw : List (String × PyVal)) :
    safe_call env "mesh.merge_by_distance" kw
      = ([attemptEvt env "mesh.merge_by_distance" kw], Except.ok (callSucceeds env "mesh.merge_by_distance" kw)) :=
  safe_call_eq env "mesh" "merge_by_distance" _ kw (by decide)

@[simp] theorem safe_call_fill_holes (env : HostEnv) (kw : List (String × PyVal)) :
    safe_call env "mesh.fill_holes" kw
      = ([attemptEvt env "mesh.fill_holes" kw], Except.ok (callSucceeds env "mesh.fill_holes" kw)) :=
  safe_call_eq env "mesh" "fill_holes" _ kw (by decide)

@[simp] theorem safe_call_normals (env : HostEnv) (kw : List (String × PyVal)) :
    safe_call env "mesh.normals_make_consistent" kw
      = ([attemptEvt env "mesh.normals_make_consistent" kw],
         Except.ok (callSucceeds env "mesh.normals_make_consistent" kw)) :=
  safe_call_eq env "mesh" "normals_make_consistent" _ kw (by decide)

@[simp] theorem safe_call_stl_export (env : HostEnv) (kw : List (String × PyVal)) :
    safe_call env "wm.stl_export" kw
      = ([attemptEvt env "wm.stl_export" kw], Except.ok (callSucceeds env "wm.stl_export" kw)) :=
  safe_call_eq env "wm" "stl_export" _ kw (by decide)

/-- The event trace left by one run of `basic_mesh_repair`. -/
def basicTrace (env : HostEnv) : List Event :=
  [attemptEvt env "object.mode_set" [("mode", PyVal.s "EDIT")],
   attemptEvt env "mesh.select_all" [("action", PyVal.s "SELECT")],
   attemptEvt env "mesh.remove_doubles" []]
  ++ (if callSucceeds env "mesh.remove_doubles" [] then []
      else [attemptEvt env "mesh.merge_by_distance" []])
  ++ [attemptEvt env "mesh.fill_holes" [],
      attemptEvt env "mesh.normals_make_consistent" [("inside", PyVal.b false)],
      attemptEvt env "object.mode_set" [("mode", PyVal.s "OBJECT")]]

theorem basic_mesh_repair_eq (env : HostEnv) (obj : PyObj) :
    basic_mesh_repair env obj = (basicTrace env, Except.ok ()) := by
  unfold basic_mesh_repair basicTrace
  cases h : callSucceeds env "mesh.remove_doubles" [] <;> simp [h]

/-- The first three events of every `repair_stl` run: scene clearing and
the import attempt. -/
def repairHead (env : HostEnv) (i : PyPath) : List Event :=
  [attemptEvt env "object.select_all" [("action", PyVal.s "SELECT")],
   attemptEvt env "object.delete" [("use_global", PyVal.b false), ("confirm", PyVal.b false)],
   attemptEvt env "wm.stl_import" (importKw i)]

/-- The events of the repair branch of `repair_stl`: the two add-on
checks when the add-on is in use, the basic repair sequence otherwise. -/
def branchTrace (env : HostEnv) (b : Bool) : List Event :=
  if b then
    [attemptEvt env "mesh.print3d_check_all" [],
     attemptEvt env "mesh.print3d_clean_non_manifold" []]
  else basicTrace env

/-- The imported object after centring and optional suffix renaming. -/
def suffixedObj (obj0 : PyObj) (s : String) : PyObj :=
  if s ≠ "" then
    { obj0 with name := obj0.name ++ s, locX := 0, locY := 0, locZ := 0 }
  else { obj0 with locX := 0, locY := 0, locZ := 0 }

/-- Closed form of one `repair_stl` run as a function of the host
oracle. -/
def repairResult (env : HostEnv) (i o : PyPath) (b : Bool) (s : String) :
    PyM (PyPath × PyObj) :=
  if callSucceeds env "wm.stl_import" (importKw i) = false then
    (repairHead env i, Except.error (PyExc.runtimeError "Failed to import STL"))
  else
    match importedObjOf env with
    | none => (repairHead env i, Except.error PyExc.indexError)
    | some obj0 =>
      (repairHead env i
        ++ [attemptEvt env "object.origin_set"
              [("type", PyVal.s "ORIGIN_CENTER_OF_VOLUME"), ("center", PyVal.s "MEDIAN")]]
        ++ branchTrace env b
        ++ [attemptEvt env "wm.stl_export" (exportKw o)],
       if callSucceeds env "wm.stl_export" (exportKw o) = false then
         Except.error (PyExc.runtimeError "Failed to export STL")
       else Except.ok (o.parent.joinName (o.stem ++ ".stl"), suffixedObj obj0 s))

theorem repair_stl_eq (env : HostEnv) (i o : PyPath) (b : Bool) (s : String) :
    repair_stl env i o b s = repairResult env i o b s := by
  unfold repair_stl repairResult repairHead branchTrace suffixedObj importedObjOf
  cases hi : callSucceeds env "wm.stl_import" (importKw i) <;>
    cases hact : env.active <;>
    cases hsel : env.selected <;>
    cases b <;>
    cases he : callSucceeds env "wm.stl_export" (exportKw o) <;>
    by_cases hs : s = "" <;>
    simp_all [basic_mesh_repair_eq]

/-- The events of the direct `addon_enable` call: the host invocation
when the operator exists, nothing when the attribute access raised
first. -/
def enableTrace (env : HostEnv) : List Event :=
  if opExists env "preferences.addon_enable" then
    [Event.attempt "preferences.addon_enable" enableKw]
  else []

theorem tryExcept_handler_ret {α : Type} (x : PyM α) (c : α) :
    (tryExcept x fun _ => ret c).2
      = Except.ok (match x.2 with | Except.ok a => a | Except.error _ => c) := by
  rcases x with ⟨t, r⟩
  cases r <;> simp [tryExcept, ret]

@[simp] theorem tryExcept_const_fst {α : Type} (x : PyM α) (c : α) :
    (tryExcept x fun _ => ([], Except.ok c)).1 = x.1 := by
  rcases x with ⟨t, r⟩
  cases r <;> simp [tryExcept]

theorem attempt_install_ok (env : HostEnv) :
    ∃ b2, (attempt_install_print_addon env).2 = Except.ok b2 :=
  ⟨_, tryExcept_handler_ret _ _⟩

theorem enable_print_addon_ok (env : HostEnv) :
    ∃ b2, (enable_print_addon env).2 = Except.ok b2 :=
  ⟨_, tryExcept_handler_ret _ _⟩

theorem attempt_install_trace (env : HostEnv) :
    (attempt_install_print_addon env).1
      = (if env.userResourceOk then
           (if env.addonFolderExists then enableTrace env
            else Event.download addonUrl ::
              (if env.downloadOk && env.unzipOk then enableTrace env else []))
         else []) := by
  unfold attempt_install_print_addon direct_call enableTrace
  cases h1 : env.userResourceOk <;>
    cases h2 : env.addonFolderExists <;>
    cases h3 : env.downloadOk <;>
    cases h4 : env.unzipOk <;>
    cases h5 : opExists env "preferences.addon_enable" <;>
    cases h6 : env.callOk "preferences.addon_enable" enableKw <;>
    simp_all

theorem enable_print_addon_trace (env : HostEnv) :
    (enable_print_addon env).1
      = (if env.addonUtilsImportOk = false then []
         else if env.addonCheckOk = false then []
         else if env.addonCheckRes.1 || env.addonCheckRes.2 then
           enableTrace env
             ++ (if callSucceeds env "preferences.addon_enable" enableKw then []
                 else (attempt_install_print_addon env).1)
         else (attempt_install_print_addon env).1) := by
  unfold enable_print_addon direct_call enableTrace callSucceeds
  cases h1 : env.addonUtilsImportOk <;>
    cases h2 : env.addonCheckOk <;>
    cases h3 : env.addonCheckRes.1 || env.addonCheckRes.2 <;>
    cases h5 : opExists env "preferences.addon_enable" <;>
    cases h6 : env.callOk "preferences.addon_enable" enableKw <;>
    simp_all

deriving instance DecidableEq for Except

theorem repair_ok_inv (env : HostEnv) (i o : PyPath) (b : Bool) (s : String)
    (tr : List Event) (p : PyPath) (objF : PyObj)
    (h : repair_stl env i o b s = (tr, Except.ok (p, objF))) :
    ∃ obj0, importedObjOf env = some obj0
      ∧ p = o.parent.joinName (o.stem ++ ".stl")
      ∧ objF = suffixedObj obj0 s := by
  rw [repair_stl_eq] at h
  unfold repairResult at h
  split at h
  · exact Except.noConfusion (congrArg Prod.snd h)
  · cases hobj : importedObjOf env with
    | none =>
      simp only [hobj] at h
      exact Except.noConfusion (congrArg Prod.snd h)
    | some obj0 =>
      simp only [hobj] at h
      refine ⟨obj0, rfl, ?_⟩
      split at h
      · exact Except.noConfusion (congrArg Prod.snd h)
      · have h2 := congrArg Prod.snd h
        injection h2 with h3
        injection h3 with h4 h5
        exact ⟨h4.symm, h5.symm⟩

/-- The concrete scene object used by the concrete host environments
below. -/
def objW : PyObj := { name := "Part", locX := 1, locY := 2, locZ := 3 }

/-- A host environment in which everything goes right: `bpy` imports,
the input exists, every operator exists and succeeds, the scene has an
active object after the import, and the add-on machinery succeeds. -/
def envAllOk : HostEnv :=
  { bpyImportOk := true, inputExists := true,
    hasMod := fun _ => true, hasOp := fun _ _ => true,
    callOk := fun _ _ => true,
    active := some objW,
    selected := [],
    addonUtilsImportOk := true, addonCheckOk := true, addonCheckRes := (true, true),
    userResourceOk := true, addonFolderExists := true, downloadOk := true,
    unzipOk := true }

/-- A host environment in which the import operator works but the scene
ends up with neither an active nor a selected object, so the lookup at
cli.py line 122 raises `IndexError`. -/
def envNoObject : HostEnv :=
  { envAllOk with active := none, selected := [] }

/-- Concrete arguments: a relative input, no `-o`, default suffix. -/
def argsPlain : Args :=
  { input := ⟨false, ["part.stl"]⟩, output := none, suffix := "_fixed",
    force_basic := false }

/-- The same arguments with `--force-basic`. -/
def argsForceBasic : Args := { argsPlain with force_basic := true }

/-- C1.  For every invocation of `main` (behind the module-level `bpy`
guard): the process exits with code 1 when `bpy` cannot be imported or
the input file does not exist; and once the output path is derived and
the add-on step has run, the process exits with code 0 exactly on a
successful `repair_stl` and with code 2 when `repair_stl` raises. -/
theorem C1_exit_codes (env : HostEnv) (args : Args) :
    (env.bpyImportOk = false → (cli_main env args).2 = MainOutcome.exit 1)
    ∧ (env.bpyImportOk = true → env.inputExists = false →
        (cli_main env args).2 = MainOutcome.exit 1)
    ∧ (∀ out u,
        env.bpyImportOk = true → env.inputExists = true →
        derivedOutput args = Except.ok out →
        (mainEnableRes env args).2 = Except.ok u →
        (∀ tr v,
          repair_stl env args.input out u (mainRepairArgsSuffix args) = (tr, Except.ok v) →
          (cli_main env args).2 = MainOutcome.exit 0)
        ∧ (∀ tr e,
          repair_stl env args.input out u (mainRepairArgsSuffix args) = (tr, Except.error e) →
          (cli_main env args).2 = MainOutcome.exit 2)) := by
  refine ⟨fun hb => by simp [cli_main, hb], fun hb hi => by simp [cli_main, hb, main, hi], ?_⟩
  intro out u hb hi hd he
  rcases hme : mainEnableRes env args with ⟨t1, r1⟩
  rw [hme] at he
  simp only at he
  subst he
  constructor
  · intro tr v hr
    simp [cli_main, hb, main, hi, hd, hme, hr]
  · intro tr e hr
    simp [cli_main, hb, main, hi, hd, hme, hr]

/-- Witness for C1 at concrete inputs: a missing `bpy` exits 1, and a
fully functional host run exits 0. -/
theorem C1_exit_codes_witness :
    (cli_main { envAllOk with bpyImportOk := false } argsPlain).2 = MainOutcome.exit 1
    ∧ (cli_main envAllOk argsPlain).2 = MainOutcome.exit 0 :=
  ⟨(C1_exit_codes { envAllOk with bpyImportOk := false } argsPlain).1 (by decide),
   ((C1_exit_codes envAllOk argsPlain).2.2 ⟨false, ["part_fixed.stl"]⟩ true
      (by decide) (by decide) (by decide) (by decide)).1
     (repair_stl envAllOk argsPlain.input ⟨false, ["part_fixed.stl"]⟩ true
        (mainRepairArgsSuffix argsPlain)).1
     (⟨false, ["part_fixed.stl"]⟩, suffixedObj objW "_fixed")
     (by decide)⟩

/-- C4.  For every operator path containing a dot, `safe_call` never
raises: it returns `False` when the operator is missing or the host
call raises, and `True` exactly when the operator exists and the host
call completes without raising. -/
theorem C4_safe_call_total (env : HostEnv) (p : String) (kw : List (String × PyVal))
    (h : '.' ∈ p.data) :
    (safe_call env p kw).2 = Except.ok (callSucceeds env p kw)
    ∧ (callSucceeds env p kw = true ↔ opExists env p = true ∧ env.callOk p kw = true) := by
  obtain ⟨m, n, hmn⟩ := rsplitDot1_two_of_dot p h
  rw [safe_call_eq env m n p kw hmn]
  exact ⟨rfl, by simp [callSucceeds, Bool.and_eq_true]⟩

/-- Witness for C4 at a concrete dotted path and host environment. -/
theorem C4_safe_call_total_witness :
    '.' ∈ ("mesh.fill_holes" : String).data
    ∧ ((safe_call envAllOk "mesh.fill_holes" []).2
          = Except.ok (callSucceeds envAllOk "mesh.fill_holes" [])
       ∧ (callSucceeds envAllOk "mesh.fill_holes" [] = true
            ↔ opExists envAllOk "mesh.fill_holes" = true
              ∧ envAllOk.callOk "mesh.fill_holes" [] = true)) :=
  ⟨by decide, C4_safe_call_total envAllOk "mesh.fill_holes" [] (by decide)⟩

/-- C6.  The generic repair path applies the fixed operator sequence in
order: enter edit mode, select all, `mesh.remove_doubles` (with
`mesh.merge_by_distance` tried exactly when `remove_doubles` was
missing or failed), `mesh.fill_holes`,
`mesh.normals_make_consistent(inside=False)`, back to object mode. -/
theorem C6_basic_repair_sequence (env : HostEnv) (obj : PyObj) :
    basic_mesh_repair env obj =
      ([attemptEvt env "object.mode_set" [("mode", PyVal.s "EDIT")],
        attemptEvt env "mesh.select_all" [("action", PyVal.s "SELECT")],
        attemptEvt env "mesh.remove_doubles" []]
       ++ (if callSucceeds env "mesh.remove_doubles" [] then []
           else [attemptEvt env "mesh.merge_by_distance" []])
       ++ [attemptEvt env "mesh.fill_holes" [],
           attemptEvt env "mesh.normals_make_consistent" [("inside", PyVal.b false)],
           attemptEvt env "object.mode_set" [("mode", PyVal.s "OBJECT")]],
       Except.ok ()) :=
  basic_mesh_repair_eq env obj

/-- C9.  Every successful `repair_stl` run returns exactly the output
path's parent directory joined with the output path's stem plus
`".stl"`. -/
theorem C9_written_path (env : HostEnv) (i o : PyPath) (b : Bool) (s : String)
    (tr : List Event) (p : PyPath) (objF : PyObj)
    (h : repair_stl env i o b s = (tr, Except.ok (p, objF))) :
    p = o.parent.joinName (o.stem ++ ".stl") := by
  obtain ⟨obj0, _, hp, _⟩ := repair_ok_inv env i o b s tr p objF h
  exact hp

/-- Witness for C9 at a concrete successful run. -/
theorem C9_written_path_witness :
    (PyPath.joinName (PyPath.parent ⟨false, ["out.stl"]⟩) (PyPath.stem ⟨false, ["out.stl"]⟩ ++ ".stl"))
      = (⟨false, ["out.stl"]⟩ : PyPath) ∧
    (repair_stl envAllOk ⟨false, ["part.stl"]⟩ ⟨false, ["out.stl"]⟩ false "_fixed").2
      = Except.ok (⟨false, ["out.stl"]⟩,
          suffixedObj objW "_fixed") :=
  ⟨by decide,
   by
     have h := C9_written_path envAllOk ⟨false, ["part.stl"]⟩ ⟨false, ["out.stl"]⟩ false "_fixed"
       (repair_stl envAllOk ⟨false, ["part.stl"]⟩ ⟨false, ["out.stl"]⟩ false "_fixed").1
       (⟨false, ["out.stl"]⟩ : PyPath)
       (suffixedObj objW "_fixed")
       (by decide)
     decide⟩

/-- C10.  In every successful `repair_stl` run the object's final name
equals its name just before the export rename (the original name, plus
the suffix when one was appended): the temporary rename to the export
stem is always undone. -/
theorem C10_name_restored (env : HostEnv) (i o : PyPath) (b : Bool) (s : String)
    (tr : List Event) (p : PyPath) (objF : PyObj)
    (h : repair_stl env i o b s = (tr, Except.ok (p, objF)))
    (obj0 : PyObj) (h0 : importedObjOf env = some obj0) :
    objF.name = (if s = "" then obj0.name else obj0.name ++ s) := by
  obtain ⟨obj1, h1, _, hobj⟩ := repair_ok_inv env i o b s tr p objF h
  rw [h0] at h1
  injection h1 with h1
  subst h1
  subst hobj
  unfold suffixedObj
  by_cases hs : s = "" <;> simp [hs]

/-- Witness for C10 at a concrete successful run with a non-empty
suffix. -/
theorem C10_name_restored_witness :
    (suffixedObj objW "_fixed").name
      = (if ("_fixed" : String) = "" then "Part" else "Part" ++ "_fixed") :=
  C10_name_restored envAllOk ⟨false, ["part.stl"]⟩ ⟨false, ["out.stl"]⟩ false "_fixed"
    (repair_stl envAllOk ⟨false, ["part.stl"]⟩ ⟨false, ["out.stl"]⟩ false "_fixed").1
    (⟨false, ["out.stl"]⟩ : PyPath)
    (suffixedObj objW "_fixed")
    (by decide)
    objW
    (by decide)

theorem mainEnableRes_ok (env : HostEnv) (args : Args) :
    ∃ u, (mainEnableRes env args).2 = Except.ok u := by
  unfold mainEnableRes
  split
  · exact ⟨false, rfl⟩
  · exact enable_print_addon_ok env

theorem repairResult_error_inv (env : HostEnv) (i o : PyPath) (b : Bool) (s : String)
    (e : PyExc) (h : (repair_stl env i o b s).2 = Except.error e) :
    callSucceeds env "wm.stl_import" (importKw i) = false
    ∨ importedObjOf env = none
    ∨ callSucceeds env "wm.stl_export" (exportKw o) = false := by
  rw [repair_stl_eq] at h
  unfold repairResult at h
  split at h
  · left; assumption
  · cases hobj : importedObjOf env with
    | none => exact Or.inr (Or.inl rfl)
    | some obj0 =>
      simp only [hobj] at h
      split at h
      · right; right; assumption
      · exact Except.noConfusion h

/-- Counterexample to C2 as stated: a run in which `bpy` imports, the
input exists, the STL import operator call succeeds and the export
operator would succeed, yet the process exits with code 2 — because
after the import the scene has neither an active nor a selected object
and the lookup at cli.py line 122 raises `IndexError`. -/
theorem C2_hard_failures_counterexample :
    (cli_main envNoObject argsForceBasic).2 = MainOutcome.exit 2
    ∧ envNoObject.bpyImportOk = true
    ∧ envNoObject.inputExists = true
    ∧ callSucceeds envNoObject "wm.stl_import" (importKw argsForceBasic.input) = true
    ∧ callSucceeds envNoObject "wm.stl_export"
        (exportKw ⟨false, ["part_fixed.stl"]⟩) = true := by decide

/-- C2 as amended: a non-zero (or abnormal) termination of the CLI
occurs only when `bpy` cannot be imported, the input file is missing,
the output-path derivation raises, the STL import operator call fails,
the scene has no active or selected object after the import, or the
STL export operator call fails. -/
theorem C2_hard_failures_amended (env : HostEnv) (args : Args)
    (h : (cli_main env args).2 ≠ MainOutcome.exit 0) :
    env.bpyImportOk = false
    ∨ env.inputExists = false
    ∨ exceptOk (derivedOutput args) = false
    ∨ callSucceeds env "wm.stl_import" (importKw args.input) = false
    ∨ importedObjOf env = none
    ∨ (∃ out, derivedOutput args = Except.ok out
        ∧ callSucceeds env "wm.stl_export" (exportKw out) = false) := by
  cases hb : env.bpyImportOk with
  | false => exact Or.inl rfl
  | true =>
    cases hi : env.inputExists with
    | false => exact Or.inr (Or.inl rfl)
    | true =>
      cases hd : derivedOutput args with
      | error e => exact Or.inr (Or.inr (Or.inl (by simp [exceptOk, hd])))
      | ok out =>
        obtain ⟨u, hu⟩ := mainEnableRes_ok env args
        rcases hme : mainEnableRes env args with ⟨t1, r1⟩
        rw [hme] at hu
        have hr1 : r1 = Except.ok u := hu
        subst hr1
        rcases hr : repair_stl env args.input out u (mainRepairArgsSuffix args) with ⟨t2, r2⟩
        cases r2 with
        | ok v =>
          exfalso
          exact h (by simp [cli_main, hb, main, hi, hd, hme, hr])
        | error e =>
          have h3 := repairResult_error_inv env args.input out u (mainRepairArgsSuffix args) e
            (by rw [hr])
          rcases h3 with h3 | h3 | h3
          · exact Or.inr (Or.inr (Or.inr (Or.inl h3)))
          · exact Or.inr (Or.inr (Or.inr (Or.inr (Or.inl h3))))
          · exact Or.inr (Or.inr (Or.inr (Or.inr (Or.inr ⟨out, rfl, h3⟩))))

/-- Witness for the amended C2 at the concrete no-object run. -/
theorem C2_hard_failures_amended_witness :
    (cli_main envNoObject argsForceBasic).2 ≠ MainOutcome.exit 0
    ∧ (envNoObject.bpyImportOk = false
       ∨ envNoObject.inputExists = false
       ∨ exceptOk (derivedOutput argsForceBasic) = false
       ∨ callSucceeds envNoObject "wm.stl_import" (importKw argsForceBasic.input) = false
       ∨ importedObjOf envNoObject = none
       ∨ (∃ out, derivedOutput argsForceBasic = Except.ok out
           ∧ callSucceeds envNoObject "wm.stl_export" (exportKw out) = false)) :=
  ⟨by decide, C2_hard_failures_amended envNoObject argsForceBasic (by decide)⟩

/-- A host environment in which everything works except that the two
3D-print add-on operators do not exist. -/
def envNoPrint3d : HostEnv :=
  { envAllOk with
    hasOp := fun _ n => !(n == "print3d_check_all" || n == "print3d_clean_non_manifold") }

/-- Counterexample to C3 as stated: a `repair_stl` run with the add-on
enabled in which both specialized operators are missing (their guarded
calls return `False`), the run completes successfully, and yet no
operator of the generic-repair path (`basic_mesh_repair`) is ever
attempted: the fallback is not substituted. -/
theorem C3_fallback_counterexample :
    exceptOk (repair_stl envNoPrint3d ⟨false, ["part.stl"]⟩ ⟨false, ["out.stl"]⟩ true "_fixed").2 = true
    ∧ callSucceeds envNoPrint3d "mesh.print3d_check_all" [] = false
    ∧ callSucceeds envNoPrint3d "mesh.print3d_clean_non_manifold" [] = false
    ∧ mentionsB (repair_stl envNoPrint3d ⟨false, ["part.stl"]⟩ ⟨false, ["out.stl"]⟩ true "_fixed").1
        "mesh.fill_holes" = false
    ∧ mentionsB (repair_stl envNoPrint3d ⟨false, ["part.stl"]⟩ ⟨false, ["out.stl"]⟩ true "_fixed").1
        "object.mode_set" = false
    ∧ mentionsB (repair_stl envNoPrint3d ⟨false, ["part.stl"]⟩ ⟨false, ["out.stl"]⟩ true "_fixed").1
        "mesh.merge_by_distance" = false := by decide

/-- C3 as amended: on the add-on path the failure of the specialized
operators is only logged and skipped; `basic_mesh_repair` is never
substituted, whatever the host does — none of the operators that occur
only in the generic-repair path is ever attempted when
`use_print_addon` is true (the `except` fallback at cli.py lines
135-137 is unreachable, since `safe_call` never raises on these dotted
operator paths). -/
theorem C3_no_fallback_amended (env : HostEnv) (i o : PyPath) (s : String) :
    mentionsB (repair_stl env i o true s).1 "mesh.fill_holes" = false
    ∧ mentionsB (repair_stl env i o true s).1 "object.mode_set" = false
    ∧ mentionsB (repair_stl env i o true s).1 "mesh.merge_by_distance" = false := by
  rw [repair_stl_eq]
  unfold repairResult repairHead branchTrace
  split
  · simp [mentionsB]
  · cases importedObjOf env <;> simp [mentionsB]

/-- C7.  `attempt_install_print_addon` performs the network fetch only
when the add-on folder is absent: when the folder exists, no download
event occurs and every event of the run is an invocation of the
`preferences.addon_enable` operator. -/
theorem C7_install_gating (env : HostEnv) (h : env.addonFolderExists = true) :
    downloadCount (attempt_install_print_addon env).1 = 0
    ∧ (attempt_install_print_addon env).1.all
        (fun e => evtPath e == some "preferences.addon_enable") = true := by
  rw [attempt_install_trace]
  cases hu : env.userResourceOk <;>
    unfold enableTrace <;>
    cases ho : opExists env "preferences.addon_enable" <;>
    simp [h, hu, ho, evtPath, isDownload]

/-- Witness for C7 at the concrete all-working host environment, whose
add-on folder exists. -/
theorem C7_install_gating_witness :
    envAllOk.addonFolderExists = true
    ∧ (downloadCount (attempt_install_print_addon envAllOk).1 = 0
       ∧ (attempt_install_print_addon envAllOk).1.all
           (fun e => evtPath e == some "preferences.addon_enable") = true) :=
  ⟨rfl, C7_install_gating envAllOk rfl⟩

@[simp] theorem beq_some_some (a b : String) : ((some a == some b) : Bool) = (a == b) := rfl

@[simp] theorem beq_none_some (b : String) :
    (((none : Option String) == some b) : Bool) = false := rfl

@[simp] theorem downloadCount_enableTrace (env : HostEnv) :
    downloadCount (enableTrace env) = 0 := by
  unfold enableTrace
  split <;> simp [isDownload]

theorem downloadCount_install_le (env : HostEnv) :
    downloadCount (attempt_install_print_addon env).1 ≤ 1 := by
  rw [attempt_install_trace]
  cases hu : env.userResourceOk <;>
    cases hf : env.addonFolderExists <;>
    cases hdz : env.downloadOk && env.unzipOk <;>
    simp [isDownload]

theorem downloadCount_enable_le (env : HostEnv) :
    downloadCount (enable_print_addon env).1 ≤ 1 := by
  rw [enable_print_addon_trace]
  cases h1 : env.addonUtilsImportOk <;>
    cases h2 : env.addonCheckOk <;>
    cases h3 : env.addonCheckRes.1 || env.addonCheckRes.2 <;>
    cases h4 : callSucceeds env "preferences.addon_enable" enableKw <;>
    simp [h1, h2, h3, h4] <;>
    exact downloadCount_install_le env

theorem downloadCount_mainEnable_le (env : HostEnv) (args : Args) :
    downloadCount (mainEnableRes env args).1 ≤ 1 := by
  unfold mainEnableRes
  split
  · simp
  · exact downloadCount_enable_le env

theorem downloadCount_repair (env : HostEnv) (i o : PyPath) (b : Bool) (s : String) :
    downloadCount (repair_stl env i o b s).1 = 0 := by
  rw [repair_stl_eq]
  unfold repairResult repairHead branchTrace basicTrace
  split
  · simp
  · cases importedObjOf env <;> cases b <;>
      cases hrd : callSucceeds env "mesh.remove_doubles" [] <;>
      simp [hrd]

theorem downloadCount_cli_le (env : HostEnv) (args : Args) :
    downloadCount (cli_main env args).1 ≤ 1 := by
  unfold cli_main main
  split
  · simp
  · split
    · simp
    · split
      · simp
      · rename_i out hout
        split
        · rename_i t1 e heq
          have h1 := downloadCount_mainEnable_le env args
          rw [heq] at h1
          simpa using h1
        · rename_i t1 u heq
          have h1 := downloadCount_mainEnable_le env args
          rw [heq] at h1
          split <;>
            rename_i t2 r2 heq2 <;>
            have h2 := downloadCount_repair env args.input out u (mainRepairArgsSuffix args) <;>
            rw [heq2] at h2 <;>
            simp at h1 h2 ⊢ <;>
            omega

theorem mentionsB_enableTrace (env : HostEnv) (p : String)
    (hp : (("preferences.addon_enable" : String) == p) = false) :
    mentionsB (enableTrace env) p = false := by
  unfold enableTrace
  split <;> simp [mentionsB, evtPath, hp]

theorem mentionsB_install (env : HostEnv) (p : String)
    (hp : (("preferences.addon_enable" : String) == p) = false) :
    mentionsB (attempt_install_print_addon env).1 p = false := by
  rw [attempt_install_trace]
  cases hu : env.userResourceOk <;>
    cases hf : env.addonFolderExists <;>
    cases hdz : env.downloadOk && env.unzipOk <;>
    simp [evtPath, mentionsB_enableTrace env p hp]

theorem mentionsB_enable (env : HostEnv) (p : String)
    (hp : (("preferences.addon_enable" : String) == p) = false) :
    mentionsB (enable_print_addon env).1 p = false := by
  rw [enable_print_addon_trace]
  cases h1 : env.addonUtilsImportOk <;>
    cases h2 : env.addonCheckOk <;>
    cases h3 : env.addonCheckRes.1 || env.addonCheckRes.2 <;>
    cases h4 : callSucceeds env "preferences.addon_enable" enableKw <;>
    simp [h1, h2, h3, h4, mentionsB_enableTrace env p hp, mentionsB_install env p hp]

theorem mentionsB_basic_check (env : HostEnv) :
    mentionsB (basicTrace env) "mesh.print3d_check_all" = false := by
  unfold basicTrace
  cases hrd : callSucceeds env "mesh.remove_doubles" [] <;> simp [hrd]

theorem mentionsB_basic_clean (env : HostEnv) :
    mentionsB (basicTrace env) "mesh.print3d_clean_non_manifold" = false := by
  unfold basicTrace
  cases hrd : callSucceeds env "mesh.remove_doubles" [] <;> simp [hrd]

theorem mentionsB_repair_basic_check (env : HostEnv) (i o : PyPath) (s : String) :
    mentionsB (repair_stl env i o false s).1 "mesh.print3d_check_all" = false := by
  rw [repair_stl_eq]
  unfold repairResult repairHead branchTrace
  split
  · simp
  · cases importedObjOf env <;> simp [mentionsB_basic_check env]

theorem mentionsB_repair_basic_clean (env : HostEnv) (i o : PyPath) (s : String) :
    mentionsB (repair_stl env i o false s).1 "mesh.print3d_clean_non_manifold" = false := by
  rw [repair_stl_eq]
  unfold repairResult repairHead branchTrace
  split
  · simp
  · cases importedObjOf env <;> simp [mentionsB_basic_clean env]

theorem mentionsB_repair_fill_holes (env : HostEnv) (i o : PyPath) (s : String)
    (hImp : callSucceeds env "wm.stl_import" (importKw i) = true)
    (obj0 : PyObj) (hobj : importedObjOf env = some obj0) :
    mentionsB (repair_stl env i o false s).1 "mesh.fill_holes" = true := by
  rw [repair_stl_eq]
  unfold repairResult repairHead branchTrace basicTrace
  cases hrd : callSucceeds env "mesh.remove_doubles" [] <;>
    simp [hImp, hobj, hrd]

theorem cli_mentions_false (env : HostEnv) (args : Args)
    (hfb : args.force_basic = false)
    (hEnable : (enable_print_addon env).2 = Except.ok false)
    (p : String)
    (hp : (("preferences.addon_enable" : String) == p) = false)
    (hrep : ∀ i o s, mentionsB (repair_stl env i o false s).1 p = false) :
    mentionsB (cli_main env args).1 p = false := by
  unfold cli_main
  cases hb : env.bpyImportOk with
  | false => simp
  | true =>
    unfold main
    cases hi : env.inputExists with
    | false => simp
    | true =>
      cases hd : derivedOutput args with
      | error e => simp [hd]
      | ok out =>
        have hme0 : mainEnableRes env args = enable_print_addon env := by
          unfold mainEnableRes
          rw [hfb]
          simp
        rcases hme : enable_print_addon env with ⟨t1, r1⟩
        have hr1 : r1 = Except.ok false := by
          have h2 := hEnable
          rw [hme] at h2
          exact h2
        subst hr1
        rcases hr : repair_stl env args.input out false (mainRepairArgsSuffix args) with ⟨t2, r2⟩
        have ht2 : mentionsB t2 p = false := by
          have h3 := hrep args.input out (mainRepairArgsSuffix args)
          rw [hr] at h3
          exact h3
        have ht1 : mentionsB t1 p = false := by
          have h4 := mentionsB_enable env p hp
          rw [hme] at h4
          exact h4
        rw [hme0, hme]
        cases r2 <;> simp [hd, hr, ht1, ht2]

theorem cli_mentions_fill_holes (env : HostEnv) (args : Args) (out : PyPath) (obj0 : PyObj)
    (hfb : args.force_basic = false)
    (hEnable : (enable_print_addon env).2 = Except.ok false)
    (hb : env.bpyImportOk = true) (hi : env.inputExists = true)
    (hd : derivedOutput args = Except.ok out)
    (hImp : callSucceeds env "wm.stl_import" (importKw args.input) = true)
    (hobj : importedObjOf env = some obj0) :
    mentionsB (cli_main env args).1 "mesh.fill_holes" = true := by
  unfold cli_main main
  have hme0 : mainEnableRes env args = enable_print_addon env := by
    unfold mainEnableRes
    rw [hfb]
    simp
  rcases hme : enable_print_addon env with ⟨t1, r1⟩
  have hr1 : r1 = Except.ok false := by
    have h2 := hEnable
    rw [hme] at h2
    exact h2
  subst hr1
  rcases hr : repair_stl env args.input out false (mainRepairArgsSuffix args) with ⟨t2, r2⟩
  have ht2 : mentionsB t2 "mesh.fill_holes" = true := by
    have h3 := mentionsB_repair_fill_holes env args.input out (mainRepairArgsSuffix args) hImp obj0 hobj
    rw [hr] at h3
    exact h3
  rw [hme0, hme]
  cases r2 <;> simp [hb, hi, hd, hr, ht2]

/-- C5.  When `--force-basic` is absent and the add-on download/install
fails (`attempt_install_print_addon`, and hence `enable_print_addon`,
returns `False`), the run performs at most one download attempt (no
retry), never attempts the specialized add-on operators, and — whenever
the repair reaches the object stage — runs the generic
`basic_mesh_repair` path instead. -/
theorem C5_install_failure_falls_back (env : HostEnv) (args : Args)
    (hfb : args.force_basic = false)
    (hInstall : (attempt_install_print_addon env).2 = Except.ok false)
    (hEnable : (enable_print_addon env).2 = Except.ok false) :
    downloadCount (cli_main env args).1 ≤ 1
    ∧ mentionsB (cli_main env args).1 "mesh.print3d_check_all" = false
    ∧ mentionsB (cli_main env args).1 "mesh.print3d_clean_non_manifold" = false
    ∧ (env.bpyImportOk = true → env.inputExists = true →
       ∀ out, derivedOutput args = Except.ok out →
       callSucceeds env "wm.stl_import" (importKw args.input) = true →
       ∀ obj0, importedObjOf env = some obj0 →
       mentionsB (cli_main env args).1 "mesh.fill_holes" = true) := by
  refine ⟨downloadCount_cli_le env args, ?_, ?_, ?_⟩
  · exact cli_mentions_false env args hfb hEnable "mesh.print3d_check_all" (by decide)
      (fun i o s => mentionsB_repair_basic_check env i o s)
  · exact cli_mentions_false env args hfb hEnable "mesh.print3d_clean_non_manifold" (by decide)
      (fun i o s => mentionsB_repair_basic_clean env i o s)
  · intro hb hi out hd hImp obj0 hobj
    exact cli_mentions_fill_holes env args out obj0 hfb hEnable hb hi hd hImp hobj

/-- A host environment in which the add-on is absent and its download
fails, so `attempt_install_print_addon` and `enable_print_addon` both
return `False`, while everything else works. -/
def envInstallFails : HostEnv :=
  { envAllOk with
    addonCheckRes := (false, false), addonFolderExists := false, downloadOk := false }

/-- Witness for C5 at the concrete failing-download environment. -/
theorem C5_install_failure_falls_back_witness :
    downloadCount (cli_main envInstallFails argsPlain).1 ≤ 1
    ∧ mentionsB (cli_main envInstallFails argsPlain).1 "mesh.print3d_check_all" = false
    ∧ mentionsB (cli_main envInstallFails argsPlain).1 "mesh.fill_holes" = true :=
  have h := C5_install_failure_falls_back envInstallFails argsPlain rfl (by decide) (by decide)
  ⟨h.1, h.2.1,
   h.2.2.2 rfl rfl ⟨false, ["part_fixed.stl"]⟩ (by decide) (by decide) objW (by decide)⟩

/-- C8.  Output-path and suffix handling of `main`: when `-o` is
omitted the chosen output is the input with its stem extended by the
suffix; the chosen output's extension is replaced by `".stl"` exactly
when it is not `".stl"` case-insensitively; the suffix string passed to
`repair_stl` is empty exactly when `-o` was given (and `args.suffix`
otherwise), so that on runs with `-o` the imported object's name is
left unchanged by the whole repair. -/
theorem C8_output_and_suffix (env : HostEnv) (args : Args) :
    (args.output = none →
      mainOutput0 args = args.input.with_stem (args.input.stem ++ args.suffix))
    ∧ (∀ o0, mainOutput0 args = Except.ok o0 →
        (asciiLower o0.suffix = ".stl" → derivedOutput args = Except.ok o0)
        ∧ (asciiLower o0.suffix ≠ ".stl" → derivedOutput args = o0.with_suffix ".stl"))
    ∧ (args.output.isSome = true → mainRepairArgsSuffix args = "")
    ∧ (args.output = none → mainRepairArgsSuffix args = args.suffix)
    ∧ (∀ out b tr p objF obj0,
        repair_stl env args.input out b (mainRepairArgsSuffix args) = (tr, Except.ok (p, objF)) →
        args.output.isSome = true →
        importedObjOf env = some obj0 →
        objF.name = obj0.name) := by
  refine ⟨?_, ?_, ?_, ?_, ?_⟩
  · intro h
    simp [mainOutput0, h]
  · intro o0 h0
    constructor
    · intro hc
      unfold derivedOutput
      rw [h0]
      simp [Except.bind, hc]
    · intro hc
      unfold derivedOutput
      rw [h0]
      simp [Except.bind, hc]
  · intro h
    simp [mainRepairArgsSuffix, h]
  · intro h
    simp [mainRepairArgsSuffix, h]
  · intro out b tr p objF obj0 hr hsome hobj
    obtain ⟨obj1, h1, _, hobjF⟩ := repair_ok_inv env args.input out b (mainRepairArgsSuffix args)
      tr p objF hr
    rw [hobj] at h1
    injection h1 with h1
    subst h1
    subst hobjF
    have hs : mainRepairArgsSuffix args = "" := by simp [mainRepairArgsSuffix, hsome]
    rw [hs]
    unfold suffixedObj
    simp

/-- Concrete arguments with an explicit `-o` path whose extension is
already `.stl`. -/
def argsWithOutput : Args :=
  { input := ⟨false, ["part.stl"]⟩, output := some ⟨false, ["out.stl"]⟩,
    suffix := "_fixed", force_basic := true }

/-- Witness for C8: with `-o out.stl` the repair suffix is empty, the
derived output is the given path unchanged, and a concrete successful
run leaves the object's name unchanged. -/
theorem C8_output_and_suffix_witness :
    mainRepairArgsSuffix argsWithOutput = ""
    ∧ derivedOutput argsWithOutput = Except.ok ⟨false, ["out.stl"]⟩
    ∧ (suffixedObj objW "").name = objW.name :=
  have h := C8_output_and_suffix envAllOk argsWithOutput
  ⟨h.2.2.1 rfl,
   (h.2.1 ⟨false, ["out.stl"]⟩ (by decide)).1 (by decide),
   h.2.2.2.2 ⟨false, ["out.stl"]⟩ false
     (repair_stl envAllOk argsWithOutput.input ⟨false, ["out.stl"]⟩ false
        (mainRepairArgsSuffix argsWithOutput)).1
     (⟨false, ["out.stl"]⟩ : PyPath) (suffixedObj objW "") objW
     (by decide) rfl (by decide)⟩

end StlRepair
